import Mathlib

/-!
Shallow embedding of the note-backend (Express/Mongoose) core:
ownership-scoped note CRUD, the captcha middleware, registration/login
validation, and the JWT auth middleware, with theorems settling the
frozen claims about them.

Conventions of the embedding:
* the Mongo note collection is a `List Note`; `findOne {_id, user}` is
  `List.find?` on those two fields; `findOneAndDelete` removes the first
  match; saving a found-and-mutated document writes it back by `_id`;
* `string | undefined` request fields are `Option String`; JavaScript
  truthiness of strings (`undefined` and `""` are falsy) is modelled
  explicitly where the source uses `||` or `!x`;
* an Express handler's response writes are collected in a list, in the
  order the handler attempts them (the client receives the first);
* `jsonwebtoken` is modelled by its contract: a signed token carries its
  payload, the signing secret and the absolute expiry; verification
  succeeds iff the secret matches and the token is unexpired.
-/

namespace NoteBackend

/-- A note document (`models/Note.ts`): required `title`, optional
`content`, owning user reference, and the `timestamps: true` creation
time. -/
structure Note where
  id : Nat
  title : String
  content : Option String
  user : Nat
  createdAt : Nat
deriving DecidableEq

/-- JavaScript `x || d` for `x : string | undefined` with `d : string`:
`undefined` and the empty string are falsy. -/
def jsOrStr (x : Option String) (d : String) : String :=
  match x with
  | none => d
  | some s => if s = "" then d else s

/-- JavaScript `x || d` where the fallback itself is
`string | undefined` (the stored optional `content`). -/
def jsOrOptStr (x : Option String) (d : Option String) : Option String :=
  match x with
  | none => d
  | some s => if s = "" then d else some s

/-- The `data` slot of a note response: a note document or JSON `null`. -/
inductive NoteData where
  | noteVal (n : Note)
  | nullVal
deriving DecidableEq

/-- One attempted response write of a note handler
(`createSuccessResponse` / `createErrorResponse` with an HTTP status). -/
structure NoteWrite where
  status : Nat
  success : Bool
  data : NoteData
  message : Option String
deriving DecidableEq

/-- The 404 body `createErrorResponse('笔记不存在')`. -/
def noteNotFoundWrite : NoteWrite :=
  { status := 404, success := false, data := .nullVal, message := some "笔记不存在" }

/-- `Note.findOne({ _id: nid, user: uid })`. -/
def findNote (store : List Note) (uid nid : Nat) : Option Note :=
  store.find? (fun n => n.id == nid && n.user == uid)

/-- `getNote` (`controllers/noteController.ts`): on a miss it writes the
404 and, lacking an early return, falls through to
`res.json(createSuccessResponse(note))` with `note = null` — a second
write. On a hit it writes the success body once. -/
def getNote (store : List Note) (uid nid : Nat) : List NoteWrite :=
  match findNote store uid nid with
  | none =>
      [noteNotFoundWrite,
       { status := 200, success := true, data := .nullVal, message := none }]
  | some n =>
      [{ status := 200, success := true, data := .noteVal n, message := none }]

/-- The mutation `note.title = title || note.title;
note.content = content || note.content` of `updateNote`. -/
def applyUpdate (n : Note) (title content : Option String) : Note :=
  { n with title := jsOrStr title n.title, content := jsOrOptStr content n.content }

/-- `updateNote`: find by `{_id, user}`; 404 in an `else`-guarded branch
(single write each way); on a hit mutate via `||` and save back by id. -/
def updateNote (store : List Note) (uid nid : Nat) (title content : Option String) :
    List NoteWrite × List Note :=
  match findNote store uid nid with
  | none => ([noteNotFoundWrite], store)
  | some n =>
      let n' := applyUpdate n title content
      ([{ status := 200, success := true, data := .noteVal n', message := none }],
       store.map (fun m => if m.id == n.id then n' else m))

/-- `Note.findOneAndDelete(filter)`: remove the first match, return it
and the remaining store. -/
def findOneAndDelete (p : Note → Bool) : List Note → Option Note × List Note
  | [] => (none, [])
  | n :: ns =>
      if p n then (some n, ns)
      else
        let r := findOneAndDelete p ns
        (r.1, n :: r.2)

/-- `deleteNote`: on a miss it writes the 404 and, lacking an early
return, falls through to the unconditional success write — a second
write. On a hit it writes the success body once. -/
def deleteNote (store : List Note) (uid nid : Nat) : List NoteWrite × List Note :=
  let r := findOneAndDelete (fun n => n.id == nid && n.user == uid) store
  match r.1 with
  | none =>
      ([noteNotFoundWrite,
        { status := 200, success := true, data := .nullVal, message := some "删除成功" }], r.2)
  | some _ =>
      ([{ status := 200, success := true, data := .nullVal, message := some "删除成功" }], r.2)

/-- Value of a digit string in base 10. -/
def digitsToNat (ds : List Char) : Nat :=
  ds.foldl (fun a c => a * 10 + (c.toNat - 48)) 0

/-- JavaScript `parseInt(s, 10)`: skip leading whitespace, optional
sign, longest digit prefix; `none` models `NaN` (no digits). -/
def jsParseInt (s : String) : Option Int :=
  let cs := s.toList.dropWhile Char.isWhitespace
  let signed : Int × List Char :=
    match cs with
    | '-' :: rest => (-1, rest)
    | '+' :: rest => (1, rest)
    | _ => (1, cs)
  let ds := signed.2.takeWhile Char.isDigit
  if ds.isEmpty then none
  else some (signed.1 * (digitsToNat ds : Int))

/-- `parseInt(q as string, 10) || d`: an absent parameter parses to
`NaN`, and both `NaN` and `0` are falsy, so they fall back to `d`. -/
def parseIntOrDefault (q : Option String) (d : Int) : Int :=
  match q with
  | none => d
  | some s =>
      match jsParseInt s with
      | none => d
      | some v => if v = 0 then d else v

/-- The Mongo sort key `{ createdAt: -1 }` as a relation: `a` comes
before `b` when `a` was created no earlier. -/
def newerFirst (a b : Note) : Prop := b.createdAt ≤ a.createdAt

instance : DecidableRel newerFirst := fun a b => Nat.decLe b.createdAt a.createdAt

instance : IsTotal Note newerFirst := ⟨fun a b => Nat.le_total b.createdAt a.createdAt⟩

instance : IsTrans Note newerFirst := ⟨fun _ _ _ h₁ h₂ => Nat.le_trans h₂ h₁⟩

/-- `.sort({ createdAt: -1 })` on a query result. -/
def sortNewestFirst (l : List Note) : List Note := List.insertionSort newerFirst l

/-- The JSON body of `getNotes`: the page of notes plus the pagination
object. -/
structure ListResult where
  notes : List Note
  page : Int
  limit : Int
  totalNotes : Nat
  totalPages : Int
deriving DecidableEq

/-- `Math.ceil(a / b)` for a nonnegative count `a` and integer `b`.
For `b = 0` JavaScript yields `Infinity`, which has no integer model;
that case is unreachable in the properties below because
`parseIntOrDefault` never returns `0`. -/
def jsCeilDiv (a : Nat) (b : Int) : Int :=
  if 0 < b then (((a + b.toNat - 1) / b.toNat : Nat) : Int)
  else if b < 0 then -(((a : Nat) / b.natAbs : Nat) : Int)
  else 0

/-- `getNotes` (`controllers/noteController.ts`): parse `page`/`limit`
with defaults 1 and 10, `skip = (page-1)*limit`, query the caller's
notes newest-first with skip/limit, and report
`totalPages = Math.ceil(totalNotes / limit)`. Mongo's `skip`/`limit`
are modelled for the nonnegative arguments the claims range over. -/
def getNotes (store : List Note) (uid : Nat) (pageQ limitQ : Option String) : ListResult :=
  let page := parseIntOrDefault pageQ 1
  let limit := parseIntOrDefault limitQ 10
  let skip := (page - 1) * limit
  let mine := store.filter (fun n => n.user == uid)
  { notes := ((sortNewestFirst mine).drop skip.toNat).take limit.toNat
    page := page
    limit := limit
    totalNotes := mine.length
    totalPages := jsCeilDiv mine.length limit }

/-- `String.prototype.toLowerCase()` on the ASCII challenge answers,
written via `List.map` so that it evaluates in the kernel; it agrees
with `String.toLower` by `String.map_eq`. -/
def jsToLower (s : String) : String := ⟨s.data.map Char.toLower⟩

/-- Outcome of the captcha middleware: the four `ValidationError`s it
can forward to `next(err)`, or `pass` for the clean `next()`. -/
inductive CaptchaOutcome where
  | sessionMissing
  | challengeExpired
  | answerMissing
  | answerMismatch
  | pass
deriving DecidableEq

/-- `validateCaptcha` (`middleware/captchaMiddleware.ts`). The session
is `none` when `req.session` is missing, else `some stored` with
`stored` the optional `session.captcha` field. Returns the outcome and
the session state afterwards; only the success path runs
`delete req.session.captcha`. An empty stored challenge is falsy in
`!sessionCaptcha`, hence reported as expired. -/
def validateCaptcha (session : Option (Option String)) (captcha : Option String) :
    CaptchaOutcome × Option (Option String) :=
  match session with
  | none => (.sessionMissing, none)
  | some stored =>
      match stored with
      | none => (.challengeExpired, some none)
      | some sc =>
          if sc = "" then (.challengeExpired, some (some sc))
          else
            match captcha with
            | none => (.answerMissing, some (some sc))
            | some c =>
                if c = "" then (.answerMissing, some (some sc))
                else if jsToLower c = jsToLower sc then (.pass, some none)
                else (.answerMismatch, some (some sc))

/-- Result of the registration validation middleware: `next()` with the
trimmed username written back to `req.body`, or a thrown
`ValidationError` with its message. -/
inductive ValidateResult where
  | ok (username : String)
  | validationError (message : String)
deriving DecidableEq

/-- Discriminator: the middleware threw a `ValidationError`. -/
def ValidateResult.isError : ValidateResult → Bool
  | .validationError _ => true
  | .ok _ => false

/-- `String.prototype.trim()` via the character list so it evaluates
in the kernel: drop `Char.isWhitespace` characters from both ends
(JavaScript's whitespace class is wider only beyond ASCII). -/
def jsTrim (s : String) : String :=
  ⟨((s.data.dropWhile Char.isWhitespace).reverse.dropWhile Char.isWhitespace).reverse⟩

/-- `validateUsername` (`middleware/validationMiddleware.ts`): trim,
reject falsy-or-short trimmed values, then reject a trimmed value that
`includes(' ')` — the literal space character. -/
def validateUsername (username : Option String) : ValidateResult :=
  match username with
  | none => .validationError "用户名至少需要3个字符"
  | some u =>
      let t := jsTrim u
      if t = "" ∨ t.length < 3 then .validationError "用户名至少需要3个字符"
      else if t.data.contains ' ' then .validationError "用户名不能包含空格"
      else .ok t

/-- The test `/^(?=.*[a-z])(?=.*[A-Z])(?=.*\d).+$/.test(p)`. In
JavaScript `.` excludes the newline and `$` (without `m`) anchors the
end of input, so the regex matches exactly the nonempty newline-free
strings containing an ASCII lowercase letter, an uppercase letter and a
digit. -/
def passwordRegexTest (p : String) : Bool :=
  !p.isEmpty && p.toList.all (fun c => c ≠ '\n')
    && p.toList.any Char.isLower && p.toList.any Char.isUpper
    && p.toList.any Char.isDigit

/-- `validatePassword`: `some message` when it throws. `!password`
catches `undefined` and `""`; the `""` case also has length `< 8`, so a
single length test is faithful for present strings. -/
def validatePassword (password : Option String) : Option String :=
  match password with
  | none => some "密码至少需要8个字符"
  | some p =>
      if p.length < 8 then some "密码至少需要8个字符"
      else if passwordRegexTest p then none
      else some "密码必须包含大小写字母和数字"

/-- `validateRegister`: username check first (its error throws before
the password is looked at), then the password check, then `next()`. -/
def validateRegister (username password : Option String) : ValidateResult :=
  match validateUsername username with
  | .validationError m => .validationError m
  | .ok t =>
      match validatePassword password with
      | some m => .validationError m
      | none => .ok t

/-- The `{ user: { id } }` JWT payload shape. -/
structure TokenUser where
  id : Nat
deriving DecidableEq

/-- Payload signed by `createToken`. -/
structure TokenPayload where
  user : TokenUser
deriving DecidableEq

/-- A signed token, modelling the `jsonwebtoken` contract: it carries
its payload, the secret it was signed with, and the absolute expiry. -/
structure Token where
  payload : TokenPayload
  secret : String
  exp : Nat
deriving DecidableEq

/-- `expiresIn: '7d'` in seconds. -/
def sevenDaysInSeconds : Nat := 7 * 24 * 60 * 60

/-- `createToken` (`controllers/authController.ts`):
`jwt.sign({ user: { id: userId } }, JWT_SECRET, { expiresIn: '7d' })`. -/
def createToken (userId : Nat) (secret : String) (now : Nat) : Token :=
  { payload := { user := { id := userId } }
    secret := secret
    exp := now + sevenDaysInSeconds }

/-- `jwt.verify`: the payload when the secret matches and the token is
unexpired, else `none` (the library throws). -/
def jwtVerify (t : Token) (secret : String) (now : Nat) : Option TokenPayload :=
  if t.secret = secret ∧ now < t.exp then some t.payload else none

/-- One attempted response write of the auth middleware. -/
structure AuthWrite where
  status : Nat
  success : Bool
  message : String
deriving DecidableEq

/-- Whether the middleware reached `next()` with a user attached, or
halted the pipeline. -/
inductive MWOutcome where
  | proceed (userId : Nat)
  | halt
deriving DecidableEq

/-- Result of running the auth middleware on one request. -/
structure MWResult where
  writes : List AuthWrite
  outcome : MWOutcome
deriving DecidableEq

/-- The 401 for a missing bearer token. -/
def tokenMissingWrite : AuthWrite :=
  { status := 401, success := false, message := "没有提供 token，拒绝访问" }

/-- The 401 of the `catch` branch around `jwt.verify`. -/
def tokenInvalidWrite : AuthWrite :=
  { status := 401, success := false, message := "token 无效" }

/-- `authMiddleware` (`middleware/authMiddleware.ts`). With no token
the 401 write is not followed by a return, so control reaches
`jwt.verify(undefined)`, which throws into the `catch` that attempts a
second 401 write; `next()` is never reached. With a token, a
verification failure writes the single invalid-token 401, and success
sets `req.user = decoded.user` and calls `next()`. -/
def authMiddleware (tok : Option Token) (secret : String) (now : Nat) : MWResult :=
  match tok with
  | none => { writes := [tokenMissingWrite, tokenInvalidWrite], outcome := .halt }
  | some t =>
      match jwtVerify t secret now with
      | some p => { writes := [], outcome := .proceed p.user.id }
      | none => { writes := [tokenInvalidWrite], outcome := .halt }

/-- A credential document (`models/UserAuth.ts`): unique username,
bcrypt-hashed password, reference to the profile document. -/
structure UserRec where
  id : Nat
  username : String
  passwordHash : String
  profile : Nat
deriving DecidableEq

/-- Outcome of `login`: a token, or the single 400 error body. -/
inductive AuthResult where
  | ok (token : Token)
  | err (status : Nat) (message : String)
deriving DecidableEq

/-- `UserAuth.findOne({ username })`. -/
def findUser (users : List UserRec) (username : String) : Option UserRec :=
  users.find? (fun u => u.username == username)

/-- `login` (`controllers/authController.ts`): one guard
`!user || !(await user.comparePassword(password))` yields the single
`400 '用户名或密码错误'` body for both a missing user and a failed
comparison; `check` models `bcrypt.compare(candidate, hash)`. -/
def login (users : List UserRec) (check : String → String → Bool)
    (secret : String) (now : Nat) (username password : String) : AuthResult :=
  match findUser users username with
  | none => .err 400 "用户名或密码错误"
  | some u =>
      if check password u.passwordHash then .ok (createToken u.id secret now)
      else .err 400 "用户名或密码错误"

/-- A profile document (`models/UserProfile.ts`). -/
structure ProfileRec where
  id : Nat
  fullName : String
  bio : Option String
  avatar : Option String
deriving DecidableEq

/-- The persistent store the auth controller touches. -/
structure DB where
  profiles : List ProfileRec
  users : List UserRec
deriving DecidableEq

/-- Outcome of `register`: token, the 400 `'用户已存在'` body, or the
error forwarded to `next(err)` when a save throws. -/
inductive RegisterResult where
  | ok (token : Token)
  | userExists
  | errForwarded
deriving DecidableEq

/-- `register` (`controllers/authController.ts`): duplicate check, then
`new UserProfile({fullName: fullName || username, bio, avatar}).save()`,
then `new UserAuth({username, password, profile}).save()` (the pre-save
hook hashes the password), then a fresh token. `credSaveOk` injects the
environment's verdict on the second save; when it throws, the already
saved profile stays and the error goes to `next(err)`. -/
def register (db : DB) (hash : String → String) (credSaveOk : Bool)
    (secret : String) (now : Nat)
    (username password : String) (fullName bio avatar : Option String)
    (newProfileId newUserId : Nat) : RegisterResult × DB :=
  match findUser db.users username with
  | some _ => (.userExists, db)
  | none =>
      let profile : ProfileRec :=
        { id := newProfileId, fullName := jsOrStr fullName username
          bio := bio, avatar := avatar }
      let db1 : DB := { db with profiles := db.profiles ++ [profile] }
      if credSaveOk then
        let u : UserRec :=
          { id := newUserId, username := username
            passwordHash := hash password, profile := newProfileId }
        (.ok (createToken newUserId secret now), { db1 with users := db1.users ++ [u] })
      else (.errForwarded, db1)

section Lemmas

/-- When the requester does not own the note with the queried id, the
ownership-scoped `findOne` misses. -/
theorem findNote_eq_none (store : List Note) (uid : Nat) (n : Note)
    (hown : n.user ≠ uid) (huniq : ∀ m ∈ store, m.id = n.id → m = n) :
    findNote store uid n.id = none := by
  apply List.find?_eq_none.mpr
  intro m hm hpred
  simp only [Bool.and_eq_true, beq_iff_eq] at hpred
  have hmn : m = n := huniq m hm hpred.1
  exact hown (hmn ▸ hpred.2)

/-- `findOneAndDelete` deletes nothing when no document matches. -/
theorem findOneAndDelete_eq_none (p : Note → Bool) (l : List Note)
    (h : ∀ x ∈ l, ¬ p x = true) : findOneAndDelete p l = (none, l) := by
  induction l with
  | nil => rfl
  | cons a t ih =>
      have ha : ¬ p a = true := h a (List.mem_cons_self a t)
      simp [findOneAndDelete, ha, ih (fun x hx => h x (List.mem_cons_of_mem a hx))]

/-- When the requester owns the note and ids are unique, the
ownership-scoped `findOne` returns exactly that note. -/
theorem findNote_eq_some (store : List Note) (uid : Nat) (n : Note)
    (hmem : n ∈ store) (hown : n.user = uid)
    (huniq : ∀ m ∈ store, m.id = n.id → m = n) :
    findNote store uid n.id = some n := by
  have hsome : (store.find? (fun m => m.id == n.id && m.user == uid)).isSome := by
    apply List.find?_isSome.mpr
    exact ⟨n, hmem, by simp [hown]⟩
  obtain ⟨m, hm⟩ := Option.isSome_iff_exists.mp hsome
  have hpred := List.find?_some hm
  simp only [Bool.and_eq_true, beq_iff_eq] at hpred
  have hmem' := List.mem_of_find?_eq_some hm
  have : m = n := huniq m hmem' hpred.1
  rw [findNote, hm, this]

end Lemmas

section Claims

/-- C1: for every authenticated identity A and every note owned by a
different identity B, `get`, `update` and `delete` invoked by A with
that note's id answer not-found first, never expose the note, and leave
the store unchanged. -/
theorem note_ops_owner_scoped (store : List Note) (uidA : Nat) (n : Note)
    (hmem : n ∈ store) (hown : n.user ≠ uidA)
    (huniq : ∀ m ∈ store, m.id = n.id → m = n) :
    (getNote store uidA n.id).head? = some noteNotFoundWrite ∧
    (∀ w ∈ getNote store uidA n.id, ∀ m : Note, w.data ≠ NoteData.noteVal m) ∧
    (∀ title content, updateNote store uidA n.id title content = ([noteNotFoundWrite], store)) ∧
    (deleteNote store uidA n.id).2 = store ∧
    ((deleteNote store uidA n.id).1).head? = some noteNotFoundWrite := by
  have hf : findNote store uidA n.id = none := findNote_eq_none store uidA n hown huniq
  have hd : findOneAndDelete (fun m => m.id == n.id && m.user == uidA) store = (none, store) := by
    apply findOneAndDelete_eq_none
    intro x hx hpx
    simp only [Bool.and_eq_true, beq_iff_eq] at hpx
    have hxn : x = n := huniq x hx hpx.1
    exact hown (hxn ▸ hpx.2)
  refine ⟨?_, ?_, ?_, ?_, ?_⟩ <;>
    simp [getNote, updateNote, deleteNote, hf, hd, noteNotFoundWrite]

/-- Witness for C1 at a one-note store: identity 1 probing the note of
identity 2. -/
theorem note_ops_owner_scoped_witness :
    (getNote [{ id := 7, title := "b", content := none, user := 2, createdAt := 0 }] 1 7).head?
        = some noteNotFoundWrite ∧
    (∀ w ∈ getNote [{ id := 7, title := "b", content := none, user := 2, createdAt := 0 }] 1 7,
        ∀ m : Note, w.data ≠ NoteData.noteVal m) ∧
    (∀ title content,
        updateNote [{ id := 7, title := "b", content := none, user := 2, createdAt := 0 }] 1 7
            title content =
          ([noteNotFoundWrite],
           [{ id := 7, title := "b", content := none, user := 2, createdAt := 0 }])) ∧
    (deleteNote [{ id := 7, title := "b", content := none, user := 2, createdAt := 0 }] 1 7).2 =
        [{ id := 7, title := "b", content := none, user := 2, createdAt := 0 }] ∧
    ((deleteNote [{ id := 7, title := "b", content := none, user := 2, createdAt := 0 }] 1 7).1).head?
        = some noteNotFoundWrite :=
  note_ops_owner_scoped
    [{ id := 7, title := "b", content := none, user := 2, createdAt := 0 }] 1
    { id := 7, title := "b", content := none, user := 2, createdAt := 0 }
    (by decide) (by decide) (by decide)

/-- Lowercasing a string preserves emptiness. -/
theorem jsToLower_eq_empty_iff (s : String) : jsToLower s = "" ↔ s = "" := by
  constructor
  · intro h
    have h2 : s.data.map Char.toLower = ([] : List Char) := congrArg String.data h
    have h3 : s.data = [] := List.map_eq_nil_iff.mp h2
    cases s
    simp_all
  · intro h
    rw [h]
    rfl

/-- C2: on a session holding a nonempty stored challenge, submitting
the case-insensitively correct answer passes and deletes the challenge;
any further validation on the resulting session reports an expired
challenge. -/
theorem captcha_correct_single_use (sc c : String)
    (hsc : sc ≠ "") (hmatch : jsToLower c = jsToLower sc) :
    validateCaptcha (some (some sc)) (some c) = (CaptchaOutcome.pass, some none) ∧
    (∀ a : Option String,
        (validateCaptcha (some none) a).1 = CaptchaOutcome.challengeExpired) := by
  have hc : c ≠ "" := by
    intro h
    apply hsc
    apply (jsToLower_eq_empty_iff sc).mp
    rw [← hmatch, h]
    rfl
  exact ⟨by simp [validateCaptcha, hsc, hc, hmatch], fun a => rfl⟩

/-- Witness for C2: challenge `"5"`, answer `"5"`. -/
theorem captcha_correct_single_use_witness :
    validateCaptcha (some (some "5")) (some "5") = (CaptchaOutcome.pass, some none) ∧
    (∀ a : Option String,
        (validateCaptcha (some none) a).1 = CaptchaOutcome.challengeExpired) :=
  captcha_correct_single_use "5" "5" (by decide) rfl

/-- An answer that fails validation against stored challenge `sc`:
absent, blank, or a case-insensitive mismatch. -/
def failingAnswer (sc : String) (a : Option String) : Prop :=
  a = none ∨ a = some "" ∨ ∃ c, a = some c ∧ c ≠ "" ∧ jsToLower c ≠ jsToLower sc

/-- A failing validation attempt leaves the stored challenge in the
session untouched. -/
theorem validateCaptcha_failing_state (sc : String) (hsc : sc ≠ "") (a : Option String)
    (hfail : failingAnswer sc a) :
    (validateCaptcha (some (some sc)) a).2 = some (some sc) := by
  rcases hfail with rfl | rfl | ⟨c, rfl, hc, hne⟩
  · simp [validateCaptcha, hsc]
  · simp [validateCaptcha, hsc]
  · simp [validateCaptcha, hsc, hc, hne]

/-- C10: blank submissions report a missing answer and mismatches a
wrong answer, both leaving the stored challenge unchanged; any sequence
of failing attempts leaves it unchanged, and the only submission that
removes the stored challenge is a passing one. -/
theorem captcha_failures_keep_challenge (sc : String) (hsc : sc ≠ "") :
    (∀ a, (a = none ∨ a = some "") →
        validateCaptcha (some (some sc)) a =
          (CaptchaOutcome.answerMissing, some (some sc))) ∧
    (∀ c, c ≠ "" → jsToLower c ≠ jsToLower sc →
        validateCaptcha (some (some sc)) (some c) =
          (CaptchaOutcome.answerMismatch, some (some sc))) ∧
    (∀ l : List (Option String), (∀ a ∈ l, failingAnswer sc a) →
        l.foldl (fun st a => (validateCaptcha st a).2) (some (some sc)) = some (some sc)) ∧
    (∀ a, (validateCaptcha (some (some sc)) a).2 ≠ some (some sc) →
        (validateCaptcha (some (some sc)) a).1 = CaptchaOutcome.pass) := by
  refine ⟨?_, ?_, ?_, ?_⟩
  · rintro a (rfl | rfl) <;> simp [validateCaptcha, hsc]
  · intro c hc hne
    simp [validateCaptcha, hsc, hc, hne]
  · intro l
    induction l with
    | nil => intro _; rfl
    | cons a t ih =>
        intro hl
        have ha := validateCaptcha_failing_state sc hsc a (hl a (List.mem_cons_self a t))
        simp only [List.foldl_cons]
        rw [ha]
        exact ih (fun x hx => hl x (List.mem_cons_of_mem a hx))
  · intro a h
    rcases a with _ | c
    · exact absurd (by simp [validateCaptcha, hsc]) h
    · by_cases hc : c = ""
      · exact absurd (by simp [validateCaptcha, hsc, hc]) h
      · by_cases hm : jsToLower c = jsToLower sc
        · simp [validateCaptcha, hsc, hc, hm]
        · exact absurd (by simp [validateCaptcha, hsc, hc, hm]) h

/-- Witness for C10: challenge `"5"`, blank then mismatching attempts. -/
theorem captcha_failures_keep_challenge_witness :
    validateCaptcha (some (some "5")) (some "") =
      (CaptchaOutcome.answerMissing, some (some "5")) :=
  (captcha_failures_keep_challenge "5" (by decide)).1 (some "") (Or.inr rfl)

/-- C3: a login for a nonexistent username and a login for an existing
username with a failing password comparison produce the identical
result, the single `400 '用户名或密码错误'` body; and login yields a
token exactly when the user exists and the comparison succeeds. -/
theorem login_no_enumeration
    (users₁ users₂ : List UserRec) (check : String → String → Bool)
    (secret₁ secret₂ : String) (now₁ now₂ : Nat)
    (u₁ p₁ u₂ p₂ : String)
    (h₁ : findUser users₁ u₁ = none)
    (v : UserRec) (h₂ : findUser users₂ u₂ = some v)
    (hpw : check p₂ v.passwordHash = false) :
    login users₁ check secret₁ now₁ u₁ p₁ = login users₂ check secret₂ now₂ u₂ p₂ ∧
    login users₂ check secret₂ now₂ u₂ p₂ = AuthResult.err 400 "用户名或密码错误" ∧
    (∀ (users : List UserRec) (secret : String) (now : Nat) (uname pw : String),
        (∃ t, login users check secret now uname pw = AuthResult.ok t) ↔
        (∃ w, findUser users uname = some w ∧ check pw w.passwordHash = true)) := by
  refine ⟨by simp [login, h₁, h₂, hpw], by simp [login, h₂, hpw], ?_⟩
  intro users secret now uname pw
  constructor
  · rintro ⟨t, ht⟩
    unfold login at ht
    cases hfind : findUser users uname with
    | none => rw [hfind] at ht; cases ht
    | some w =>
        rw [hfind] at ht
        by_cases hc : check pw w.passwordHash
        · exact ⟨w, rfl, hc⟩
        · simp [hc] at ht
  · rintro ⟨w, hw, hc⟩
    exact ⟨createToken w.id secret now, by simp [login, hw, hc]⟩

/-- Witness for C3: empty store versus a store holding `bob`, with a
comparison that always fails. -/
theorem login_no_enumeration_witness :
    login [] (fun _ _ => false) "s" 0 "alice" "pw" =
      login [{ id := 1, username := "bob", passwordHash := "H", profile := 1 }]
        (fun _ _ => false) "s" 0 "bob" "pw" ∧
    login [{ id := 1, username := "bob", passwordHash := "H", profile := 1 }]
        (fun _ _ => false) "s" 0 "bob" "pw" = AuthResult.err 400 "用户名或密码错误" :=
  ⟨(login_no_enumeration [] [{ id := 1, username := "bob", passwordHash := "H", profile := 1 }]
      (fun _ _ => false) "s" "s" 0 0 "alice" "pw" "bob" "pw" rfl
      { id := 1, username := "bob", passwordHash := "H", profile := 1 } (by decide) rfl).1,
   (login_no_enumeration [] [{ id := 1, username := "bob", passwordHash := "H", profile := 1 }]
      (fun _ _ => false) "s" "s" 0 0 "alice" "pw" "bob" "pw" rfl
      { id := 1, username := "bob", passwordHash := "H", profile := 1 } (by decide) rfl).2.1⟩

/-- C4 counterexample: the username `"a\tb"` contains whitespace (a
tab) yet registration validation passes it, because the source only
rejects `includes(' ')` — the space character — on the trimmed name. -/
theorem register_validation_whitespace_cex :
    (∃ ch ∈ ("a\tb" : String).toList, ch.isWhitespace = true) ∧
    validateRegister (some "a\tb") (some "Passw0rd") = ValidateResult.ok "a\tb" :=
  ⟨⟨'\t', by decide, by decide⟩, by decide⟩

/-- C4 (amended): registration validation rejects a missing username, a
trimmed username shorter than 3 characters, and a trimmed username
containing a space character (not all whitespace); it rejects a missing
password, a password shorter than 8 characters, and a password lacking
a lowercase letter, an uppercase letter, or a digit; `"ab"` is rejected
while `"abc"` with `"Passw0rd"` passes. -/
theorem register_validation_rules (username password : Option String) :
    (username = none → (validateRegister username password).isError = true) ∧
    (∀ u, username = some u → (jsTrim u).length < 3 →
        (validateRegister username password).isError = true) ∧
    (∀ u, username = some u → (jsTrim u).data.contains ' ' = true →
        (validateRegister username password).isError = true) ∧
    (password = none → (validateRegister username password).isError = true) ∧
    (∀ p, password = some p → p.length < 8 →
        (validateRegister username password).isError = true) ∧
    (∀ p, password = some p →
        (p.toList.any Char.isLower = false ∨ p.toList.any Char.isUpper = false ∨
          p.toList.any Char.isDigit = false) →
        (validateRegister username password).isError = true) ∧
    (validateRegister (some "ab") (some "Passw0rd")).isError = true ∧
    validateRegister (some "abc") (some "Passw0rd") = ValidateResult.ok "abc" := by
  refine ⟨?_, ?_, ?_, ?_, ?_, ?_, by decide, by decide⟩
  · rintro rfl
    rfl
  · rintro u rfl hlen
    simp [validateRegister, validateUsername, ValidateResult.isError, hlen]
  · rintro u rfl hsp
    by_cases h1 : jsTrim u = "" ∨ (jsTrim u).length < 3
    · rcases h1 with h | h <;>
        simp [validateRegister, validateUsername, ValidateResult.isError, h]
    · have hsp' : ' ' ∈ (jsTrim u).data := by simpa using hsp
      simp [validateRegister, validateUsername, ValidateResult.isError, h1, hsp']
  · rintro rfl
    cases hv : validateUsername username <;>
      simp [validateRegister, hv, validatePassword, ValidateResult.isError]
  · rintro p rfl hlen
    cases hv : validateUsername username <;>
      simp [validateRegister, hv, validatePassword, ValidateResult.isError, hlen]
  · rintro p rfl hmiss
    cases hv : validateUsername username
    case validationError m =>
        simp [validateRegister, hv, ValidateResult.isError]
    case ok t =>
        by_cases hlen : p.length < 8
        · simp [validateRegister, hv, validatePassword, ValidateResult.isError, hlen]
        · have hreg : passwordRegexTest p = false := by
            rcases hmiss with h | h | h <;>
              simp only [passwordRegexTest, h, Bool.and_false, Bool.false_and]
          simp [validateRegister, hv, validatePassword, ValidateResult.isError, hlen, hreg]

/-- Witness for C4 at the short username `"ab"`. -/
theorem register_validation_rules_witness :
    (validateRegister (some "ab") (some "Passw0rd")).isError = true :=
  (register_validation_rules (some "ab") (some "Passw0rd")).2.1 "ab" rfl (by decide)

/-- C5 counterexample: supplying `title = ""` does not overwrite the
stored title — `title || note.title` treats the supplied empty string
as falsy and keeps the prior `"T"`. -/
theorem update_supplied_empty_title_cex :
    (updateNote [{ id := 1, title := "T", content := some "c", user := 0, createdAt := 0 }]
        0 1 (some "") (some "c2")).2.map Note.title = ["T"] ∧
    ("T" : String) ≠ "" :=
  ⟨by decide, by decide⟩

/-- C5 (amended): update is a partial update in which a field that is
absent or supplied as the empty string retains its prior value, a
supplied non-empty field overwrites the stored one, the other fields of
the note are untouched, and only the matched note in the store is
replaced. -/
theorem update_partial_fields (store : List Note) (uid : Nat) (n : Note)
    (title content : Option String)
    (hmem : n ∈ store) (hown : n.user = uid)
    (huniq : ∀ m ∈ store, m.id = n.id → m = n) :
    updateNote store uid n.id title content =
      ([{ status := 200, success := true, data := NoteData.noteVal (applyUpdate n title content),
          message := none }],
       store.map (fun m => if m.id == n.id then applyUpdate n title content else m)) ∧
    (title = none → (applyUpdate n title content).title = n.title) ∧
    (title = some "" → (applyUpdate n title content).title = n.title) ∧
    (∀ s, title = some s → s ≠ "" → (applyUpdate n title content).title = s) ∧
    (content = none → (applyUpdate n title content).content = n.content) ∧
    (content = some "" → (applyUpdate n title content).content = n.content) ∧
    (∀ s, content = some s → s ≠ "" → (applyUpdate n title content).content = some s) ∧
    (applyUpdate n title content).id = n.id ∧
    (applyUpdate n title content).user = n.user ∧
    (applyUpdate n title content).createdAt = n.createdAt := by
  have hf := findNote_eq_some store uid n hmem hown huniq
  refine ⟨by simp [updateNote, hf], ?_, ?_, ?_, ?_, ?_, ?_, rfl, rfl, rfl⟩
  · rintro rfl
    rfl
  · rintro rfl
    rfl
  · rintro s rfl hs
    simp [applyUpdate, jsOrStr, hs]
  · rintro rfl
    rfl
  · rintro rfl
    rfl
  · rintro s rfl hs
    simp [applyUpdate, jsOrOptStr, hs]

/-- Witness for C5: updating only `content` keeps the stored title. -/
theorem update_partial_fields_witness :
    (applyUpdate { id := 1, title := "T", content := some "c", user := 0, createdAt := 0 }
        none (some "c2")).title =
      ({ id := 1, title := "T", content := some "c", user := 0, createdAt := 0 } : Note).title :=
  (update_partial_fields [{ id := 1, title := "T", content := some "c", user := 0, createdAt := 0 }]
      0 { id := 1, title := "T", content := some "c", user := 0, createdAt := 0 }
      none (some "c2") (by decide) (by decide) (by decide)).2.1 rfl

/-- Fifteen notes of user 0 created at strictly increasing times. -/
def demoNotes : List Note :=
  (List.range 15).map (fun i =>
    { id := i + 1, title := "t", content := none, user := 0, createdAt := i + 1 })

/-- C6: listing returns only the caller's notes, sorted newest-first;
`page` defaults to 1 and `limit` to 10 when the query value is absent
or non-numeric; for a positive limit, `totalPages` is the ceiling of
`totalNotes / limit` (characterized by the two bounding inequalities);
and on 15 notes with `limit = 10`, `totalPages` is 2 and page 2 holds
exactly the 5 oldest notes, newest-first. -/
theorem getNotes_listing (store : List Note) (uid : Nat) (pageQ limitQ : Option String) :
    (∀ n ∈ (getNotes store uid pageQ limitQ).notes, n.user = uid) ∧
    List.Sorted newerFirst (getNotes store uid pageQ limitQ).notes ∧
    ((pageQ = none ∨ ∃ s, pageQ = some s ∧ jsParseInt s = none) →
        (getNotes store uid pageQ limitQ).page = 1) ∧
    ((limitQ = none ∨ ∃ s, limitQ = some s ∧ jsParseInt s = none) →
        (getNotes store uid pageQ limitQ).limit = 10) ∧
    (0 < (getNotes store uid pageQ limitQ).limit →
        ((getNotes store uid pageQ limitQ).totalNotes : Int) ≤
          (getNotes store uid pageQ limitQ).totalPages *
            (getNotes store uid pageQ limitQ).limit ∧
        (getNotes store uid pageQ limitQ).totalPages *
            (getNotes store uid pageQ limitQ).limit <
          (getNotes store uid pageQ limitQ).totalNotes +
            (getNotes store uid pageQ limitQ).limit) ∧
    (getNotes demoNotes 0 (some "1") (some "10")).totalPages = 2 ∧
    (getNotes demoNotes 0 (some "1") (some "10")).notes.map Note.createdAt =
      [15, 14, 13, 12, 11, 10, 9, 8, 7, 6] ∧
    (getNotes demoNotes 0 (some "2") (some "10")).notes.map Note.createdAt =
      [5, 4, 3, 2, 1] := by
  have hnotes : (getNotes store uid pageQ limitQ).notes =
      ((sortNewestFirst (store.filter (fun m => m.user == uid))).drop
          ((parseIntOrDefault pageQ 1 - 1) * parseIntOrDefault limitQ 10).toNat).take
        (parseIntOrDefault limitQ 10).toNat := rfl
  refine ⟨?_, ?_, ?_, ?_, ?_, by decide, by decide, by decide⟩
  · intro n hn
    rw [hnotes] at hn
    have h1 : n ∈ sortNewestFirst (store.filter (fun m => m.user == uid)) :=
      ((List.take_sublist _ _).trans (List.drop_sublist _ _)).subset hn
    simp only [sortNewestFirst] at h1
    have h2 : n ∈ store.filter (fun m => m.user == uid) :=
      (List.perm_insertionSort newerFirst _).subset h1
    simpa using (List.mem_filter.mp h2).2
  · rw [hnotes]
    simp only [sortNewestFirst]
    exact (List.sorted_insertionSort newerFirst _).sublist
      ((List.take_sublist _ _).trans (List.drop_sublist _ _))
  · rintro (rfl | ⟨s, rfl, hs⟩)
    · rfl
    · show parseIntOrDefault (some s) 1 = 1
      simp [parseIntOrDefault, hs]
  · rintro (rfl | ⟨s, rfl, hs⟩)
    · rfl
    · show parseIntOrDefault (some s) 10 = 10
      simp [parseIntOrDefault, hs]
  · intro hpos
    have hpos' : 0 < parseIntOrDefault limitQ 10 := hpos
    have hl : ((parseIntOrDefault limitQ 10).toNat : Int) = parseIntOrDefault limitQ 10 :=
      Int.toNat_of_nonneg (le_of_lt hpos')
    have hln0 : 0 < (parseIntOrDefault limitQ 10).toNat := by
      omega
    have htp : (getNotes store uid pageQ limitQ).totalPages =
        ((((store.filter (fun m => m.user == uid)).length +
            (parseIntOrDefault limitQ 10).toNat - 1) /
          (parseIntOrDefault limitQ 10).toNat : Nat) : Int) := by
      show jsCeilDiv ((store.filter (fun m => m.user == uid)).length)
          (parseIntOrDefault limitQ 10) = _
      simp only [jsCeilDiv, hpos', if_true]
    set a := (store.filter (fun m => m.user == uid)).length with ha
    set ln := (parseIntOrDefault limitQ 10).toNat with hln
    have hk1 : (a + ln - 1) / ln * ln ≤ a + ln - 1 := Nat.div_mul_le_self _ _
    have hk2 : a + ln - 1 < (a + ln - 1) / ln * ln + ln := by
      have h := Nat.lt_mul_div_succ (a + ln - 1) hln0
      rw [Nat.mul_succ, Nat.mul_comm] at h
      exact h
    have hnat : a ≤ (a + ln - 1) / ln * ln ∧ (a + ln - 1) / ln * ln < a + ln := by
      generalize (a + ln - 1) / ln * ln = k at hk1 hk2 ⊢
      omega
    have htn : (getNotes store uid pageQ limitQ).totalNotes = a := rfl
    have hlim : (getNotes store uid pageQ limitQ).limit = parseIntOrDefault limitQ 10 := rfl
    rw [htn, hlim, htp]
    constructor
    · calc (a : Int) ≤ (((a + ln - 1) / ln * ln : Nat) : Int) := by exact_mod_cast hnat.1
        _ = (((a + ln - 1) / ln : Nat) : Int) * ((ln : Nat) : Int) := by push_cast; ring
        _ = (((a + ln - 1) / ln : Nat) : Int) * parseIntOrDefault limitQ 10 := by rw [hl]
    · calc (((a + ln - 1) / ln : Nat) : Int) * parseIntOrDefault limitQ 10
          = (((a + ln - 1) / ln : Nat) : Int) * ((ln : Nat) : Int) := by rw [hl]
        _ = (((a + ln - 1) / ln * ln : Nat) : Int) := by push_cast; ring
        _ < (a : Int) + ((ln : Nat) : Int) := by exact_mod_cast hnat.2
        _ = (a : Int) + parseIntOrDefault limitQ 10 := by rw [hl]

/-- Witness for C6: an absent page query defaults to page 1. -/
theorem getNotes_listing_witness :
    (getNotes [] 0 none none).page = 1 :=
  (getNotes_listing [] 0 none none).2.2.1 (Or.inl rfl)

/-- C7 (code bug): on a miss, `getNote` and `deleteNote` write the 404
and then attempt a second, success-shaped response write, and the auth
middleware with no token writes the missing-token 401 and then attempts
a second 401 from the `catch` around `jwt.verify(undefined)` — each of
these handlers attempts two response writes, not one. -/
theorem handlers_attempt_second_write :
    (getNote [] 0 1).length = 2 ∧
    (getNote [] 0 1).map NoteWrite.status = [404, 200] ∧
    ((deleteNote [] 0 1).1).map NoteWrite.status = [404, 200] ∧
    ((authMiddleware none "secret" 0).writes).map AuthWrite.status = [401, 401] :=
  ⟨rfl, rfl, rfl, rfl⟩

/-- C8: a token issued for a subject id signs the payload
`{user:{id}}` with a 7-day absolute expiry; verifying it unexpired
under the same secret proceeds with exactly that subject id attached;
with no bearer token the middleware's first response is the
missing-token 401 and it halts; a wrong secret or an expired token
yields the invalid-token 401. -/
theorem token_issue_verify (uid : Nat) (secret : String) (issuedAt now : Nat)
    (hfresh : now < issuedAt + sevenDaysInSeconds) :
    (createToken uid secret issuedAt).payload = { user := { id := uid } } ∧
    (createToken uid secret issuedAt).exp = issuedAt + sevenDaysInSeconds ∧
    authMiddleware (some (createToken uid secret issuedAt)) secret now =
      { writes := [], outcome := MWOutcome.proceed uid } ∧
    (authMiddleware none secret now).writes.head? = some tokenMissingWrite ∧
    (authMiddleware none secret now).outcome = MWOutcome.halt ∧
    (∀ t : Token, t.secret ≠ secret ∨ t.exp ≤ now →
        authMiddleware (some t) secret now =
          { writes := [tokenInvalidWrite], outcome := MWOutcome.halt }) := by
  refine ⟨rfl, rfl, ?_, rfl, rfl, ?_⟩
  · simp [authMiddleware, jwtVerify, createToken, hfresh]
  · rintro t (h | h)
    · simp [authMiddleware, jwtVerify, h]
    · have h' : ¬ now < t.exp := Nat.not_lt.mpr h
      simp [authMiddleware, jwtVerify, h']

/-- Witness for C8: subject 1, secret `"s"`, verified at issue time. -/
theorem token_issue_verify_witness :
    authMiddleware (some (createToken 1 "s" 0)) "s" 0 =
      { writes := [], outcome := MWOutcome.proceed 1 } :=
  (token_issue_verify 1 "s" 0 0 (by decide)).2.2.1

/-- C9: when the username is free and the credential save fails after
the profile save succeeded, `register` forwards the error, creates no
credential, and the freshly created profile record persists in the
store. -/
theorem register_orphan_profile (db : DB) (hash : String → String)
    (secret : String) (now : Nat) (username password : String)
    (fullName bio avatar : Option String) (pid uidNew : Nat)
    (hfree : findUser db.users username = none) :
    (register db hash false secret now username password fullName bio avatar pid uidNew).1 =
      RegisterResult.errForwarded ∧
    (register db hash false secret now username password fullName bio avatar pid uidNew).2.users =
      db.users ∧
    (register db hash false secret now username password fullName bio avatar pid uidNew).2.profiles =
      db.profiles ++
        [{ id := pid, fullName := jsOrStr fullName username, bio := bio, avatar := avatar }] ∧
    ({ id := pid, fullName := jsOrStr fullName username, bio := bio,
        avatar := avatar } : ProfileRec) ∈
      (register db hash false secret now username password fullName bio avatar pid uidNew).2.profiles := by
  refine ⟨?_, ?_, ?_, ?_⟩ <;> simp [register, hfree]

/-- Witness for C9: registering `"bob"` on an empty store with a
failing credential save leaves the orphaned profile behind. -/
theorem register_orphan_profile_witness :
    (register { profiles := [], users := [] } (fun p => p) false "s" 0
        "bob" "Passw0rd" none none none 1 1).1 = RegisterResult.errForwarded ∧
    (register { profiles := [], users := [] } (fun p => p) false "s" 0
        "bob" "Passw0rd" none none none 1 1).2.users = [] ∧
    (register { profiles := [], users := [] } (fun p => p) false "s" 0
        "bob" "Passw0rd" none none none 1 1).2.profiles =
      [] ++ [{ id := 1, fullName := jsOrStr none "bob", bio := none, avatar := none }] ∧
    ({ id := 1, fullName := jsOrStr none "bob", bio := none,
        avatar := none } : ProfileRec) ∈
      (register { profiles := [], users := [] } (fun p => p) false "s" 0
        "bob" "Passw0rd" none none none 1 1).2.profiles :=
  register_orphan_profile { profiles := [], users := [] } (fun p => p) "s" 0
    "bob" "Passw0rd" none none none 1 1 rfl

end Claims

end NoteBackend
